import Mathlib

/-!
Shallow embedding of the two scripts of the repository:
`src/run_prompts.py` (batch prompt runner, namespace `RunPrompts`) and
`src/cloudflare_tunnel.py` (tunnel provisioning, namespace `CloudflareTunnel`).

Modelling boundaries:
* JSON documents are the inductive `Json`; numbers are `Rat` (Python
  distinguishes `int`/`float`, but no branch of the scripts does).
* `json.loads` is an oracle: the loader receives the raw text together with
  the optional parse result (`none` = `json.JSONDecodeError`).
* HTTP calls (`requests.get`/`requests.post`) are oracles indexed by the
  attempt or record number; a Python exception raised by a call is the
  `Except.error` case carrying `str(e)`.
* Wall-clock timestamps, durations and log lines are not modelled; the
  `time.sleep` calls of the batch loop are recorded in an explicit trace.
* Server responses to `/api/generate` are assumed schema-conformant
  (`GenResponse`); file system writes are assumed to succeed.
-/

namespace RunPrompts

/-- A JSON value as produced by `json.loads`. Object fields are listed in
insertion order; objects coming from the JSON parser have distinct keys. -/
inductive Json where
  | str (s : String)
  | num (q : Rat)
  | bool (b : Bool)
  | null
  | arr (elems : List Json)
  | obj (fields : List (String × Json))

/-- `d[k]` / `k in d` for a Python dict: look the key up (keys are unique
in a parsed JSON object, so first match is the match). -/
def jsonLookup : List (String × Json) → String → Option Json
  | [], _ => none
  | kv :: rest, k => if kv.1 = k then some kv.2 else jsonLookup rest k

/-- Python `type(x).__name__` for a parsed JSON value (Python separates
`int` and `float`; both are `number` here, no branch distinguishes them). -/
def pyType : Json → String
  | .str _ => "str"
  | .num _ => "number"
  | .bool _ => "bool"
  | .null => "NoneType"
  | .arr _ => "list"
  | .obj _ => "dict"

/-- Python `str(x)` for a parsed JSON value. Only the `.str` case is ever
inspected by the scripts beyond emptiness; renderings of compound values
are approximations of `repr` and are never empty, like their originals. -/
def pyStr : Json → String
  | .str s => s
  | .num q => toString q
  | .bool true => "True"
  | .bool false => "False"
  | .null => "None"
  | .arr _ => "[list]"
  | .obj _ => "[dict]"

/-- Python truthiness of a parsed JSON value. -/
def pyTruthy : Json → Bool
  | .str s => s ≠ ""
  | .num q => q ≠ 0
  | .bool b => b
  | .null => false
  | .arr elems => !elems.isEmpty
  | .obj fields => !fields.isEmpty

/-- Python `str.strip()` (three-dot whitespace trim). -/
def pyStrip (s : String) : String :=
  String.mk (((s.data.dropWhile Char.isWhitespace).reverse.dropWhile
    Char.isWhitespace).reverse)

/-- Python `s.startswith(p)`. -/
def pyStartsWith (s p : String) : Bool :=
  p.data.isPrefixOf s.data

/-- Python `x > 0` on a JSON value (`delay > 0` in the batch loop):
defined for numbers and booleans, a `TypeError` otherwise. -/
def pyGtZero : Json → Except String Bool
  | .num q => .ok (decide (0 < q))
  | .bool b => .ok b
  | _ => .error "TypeError: comparison between delay value and int is not supported"

/-- The two failure modes of `load_prompts_from_json`: a JSON decode
error (the logged diagnostic carries the first 500 characters of the
offending text when it is non-empty) or an unrecognized document type
(`ValueError` naming the type). -/
inductive LoadError where
  | decodeError (preview : Option (List Char))
  | unrecognized (typeName : String)

/-- `load_prompts_from_json` (src/run_prompts.py:162-197). Takes the raw
text and the `json.loads` oracle; returns the value the Python function
returns (the branches return it unchanged, without validating elements). -/
def load_prompts_from_json (raw : String) (parsed : Option Json) :
    Except LoadError Json :=
  match parsed with
  | none =>
      .error (.decodeError (if raw = "" then none else some (raw.data.take 500)))
  | some (.arr elems) => .ok (.arr elems)
  | some (.obj fields) =>
      match jsonLookup fields "prompts" with
      | some v => .ok v
      | none =>
          if (jsonLookup fields "prompt").isSome then .ok (.arr [.obj fields])
          else
            .ok (.arr (fields.filterMap fun kv =>
              if pyStartsWith kv.1 "prompt_" then
                some (.obj [("id", .str kv.1), ("prompt", kv.2)])
              else none))
  | some (.str s) => .ok (.arr [.obj [("id", .num 1), ("prompt", .str s)]])
  | some other => .error (.unrecognized (pyType other))

/-- The five accepted input shapes of the loader. -/
inductive Shape where
  | seqShape
  | promptsKey
  | promptKey
  | genericObj
  | bareStr
deriving DecidableEq

/-- Which documents a shape accepts, read off the spec one predicate at a
time (used to compare the documented priority list with the code). -/
def shapeMatches : Shape → Json → Bool
  | .seqShape, .arr _ => true
  | .promptsKey, .obj fields => (jsonLookup fields "prompts").isSome
  | .promptKey, .obj fields => (jsonLookup fields "prompt").isSome
  | .genericObj, .obj _ => true
  | .bareStr, .str _ => true
  | _, _ => false

/-- The documented priority order of the five shapes. -/
def priorityOrder : List Shape :=
  [.seqShape, .promptsKey, .promptKey, .genericObj, .bareStr]

/-- Modelled from the spec: classification picks the first shape of the
priority list that matches the document. -/
def specClassify (j : Json) : Option Shape :=
  priorityOrder.find? (fun sh => shapeMatches sh j)

/-- The branch structure of `load_prompts_from_json`, as a classifier
(`none` = the final `raise ValueError` branch). -/
def classify : Json → Option Shape
  | .arr _ => some .seqShape
  | .obj fields =>
      if (jsonLookup fields "prompts").isSome then some .promptsKey
      else if (jsonLookup fields "prompt").isSome then some .promptKey
      else some .genericObj
  | .str _ => some .bareStr
  | _ => none

/-- Outcome of one `requests.get(f"{base_url}/api/tags", timeout=10)`
attempt: a 200 response, a non-200 response, a
`requests.exceptions.ConnectionError`, or any other exception. -/
inductive HealthOutcome where
  | ok
  | badStatus
  | connError
  | otherError
deriving DecidableEq

/-- Loop body of `OllamaClient.health_check` (src/run_prompts.py:70-100).
`i` is the number of attempts already made, `remaining` the attempts left
(`remaining + i = max_retries`, so the Python test `i < max_retries - 1`
is `0 < remaining - 1`, i.e. `0 < r` after peeling one attempt), `waits`
the `(attempt index, seconds slept)` pairs so far. Returns the boolean
result, the number of attempts issued and the sleep trace. -/
def healthAux (oracle : Nat → HealthOutcome) :
    Nat → Nat → List (Nat × Nat) → Bool × Nat × List (Nat × Nat)
  | 0, i, waits => (false, i, waits)
  | r + 1, i, waits =>
      match oracle i with
      | .ok => (true, i + 1, waits)
      | .badStatus => healthAux oracle r (i + 1) waits
      | .connError =>
          if 0 < r then healthAux oracle r (i + 1) (waits ++ [(i, 5 * (i + 1))])
          else (false, i + 1, waits)
      | .otherError =>
          if 0 < r then healthAux oracle r (i + 1) (waits ++ [(i, 5)])
          else healthAux oracle r (i + 1) waits

/-- `OllamaClient.health_check`, with the per-attempt HTTP outcome as an
oracle. -/
def health_check (oracle : Nat → HealthOutcome) (max_retries : Nat) :
    Bool × Nat × List (Nat × Nat) :=
  healthAux oracle max_retries 0 []

/-- A schema-conformant body of a successful `/api/generate` response:
the fields the script reads, each optional (`dict.get` with a default). -/
structure GenResponse where
  response : Option String
  prompt_eval_count : Option Nat
  eval_count : Option Nat

/-- The oracle for `client.generate(...)`: for the record at 1-based
position `k`, either a response body or the `str(e)` of the raised
exception (timeout, transport error, or non-2xx via `raise_for_status`). -/
def GenOracle := Nat → Except String GenResponse

/-- One element of the `results` list of `main` (src/run_prompts.py:382-399
and 416-424). Success entries fill every field; failure entries carry only
`id`/`model`/`prompt`/`error`/`success`/`status` (wall-clock `timestamp`
and `total_duration` are outside the embedding). -/
structure GenResult where
  id : Json
  model : String
  temperature : Option Json
  prompt : Json
  system_prompt : Option Json
  response : Option String
  prompt_tokens : Option Nat
  completion_tokens : Option Nat
  total_tokens : Option Nat
  config : Option Json
  success : Bool
  error : Option String
  status : Option String

/-- `prompt_data.get("prompt", prompt_data.get("content", ""))`, or
`str(prompt_data)` for a non-dict record (src/run_prompts.py:340-349). -/
def recPrompt : Json → Json
  | .obj fields =>
      ((jsonLookup fields "prompt").getD
        ((jsonLookup fields "content").getD (.str "")))
  | _other => .str (pyStr _other)

/-- `prompt_data.get("id", i)` (`i` the 1-based position). -/
def recId (i : Nat) : Json → Json
  | .obj fields => (jsonLookup fields "id").getD (.num i)
  | _ => .num i

/-- `prompt_data.get("config", \x7b\x7d)`. -/
def recConfig : Json → Json
  | .obj fields => (jsonLookup fields "config").getD (.obj [])
  | _ => .obj []

/-- `prompt_data.get("system", "")`. -/
def recSystem : Json → Json
  | .obj fields => (jsonLookup fields "system").getD (.str "")
  | _ => .str ""

/-- The failure-variant result appended by the `except` handler
(src/run_prompts.py:416-424). `prompt_text` is always assigned before any
statement of the loop body can raise, so the handler sees the current
record's extracted prompt. -/
def mkFailure (id : Json) (model : String) (pt : Json) (msg : String) :
    GenResult :=
  ⟨id, model, none, pt, none, none, none, none, none, none, false, some msg,
    some "failed"⟩

/-- The success-variant result (src/run_prompts.py:382-399). -/
def mkSuccess (id : Json) (model : String) (temp : Json) (pt : String)
    (psys : Json) (cfg : Json) (resp : GenResponse) : GenResult :=
  ⟨id, model, some temp, .str pt,
    if pyTruthy psys then some psys else none,
    some (resp.response.getD ""),
    some (resp.prompt_eval_count.getD 0),
    some (resp.eval_count.getD 0),
    some (resp.prompt_eval_count.getD 0 + resp.eval_count.getD 0),
    some cfg, true, none, none⟩

/-- One iteration of the batch loop of `main` (src/run_prompts.py:337-424)
for the record at 1-based position `i`: the results appended for this
record and the delays slept. An empty-after-strip prompt is skipped
(no result); a non-string prompt raises `AttributeError` at `.strip()`;
a non-dict config raises `AttributeError` at `prompt_config.get`; a
failed generation appends one failure result; after a successful one,
`delay = prompt_config.get("delay", 1)` is compared with 0 — a
non-comparable delay value raises `TypeError` AFTER the success result
was appended, so the handler appends a second, failure result. -/
def processRecord (gen : GenOracle) (model_tag : String) (temperature : Rat)
    (i : Nat) (rec : Json) : List GenResult × List Json :=
  let pt := recPrompt rec
  let pid := recId i rec
  let pcfg := recConfig rec
  let psys := recSystem rec
  match pt with
  | .str s =>
      if pyStrip s = "" then ([], [])
      else
        match pcfg with
        | .obj cf =>
            let temp := (jsonLookup cf "temperature").getD (.num temperature)
            match gen i with
            | .ok resp =>
                let res := mkSuccess pid model_tag temp s psys (.obj cf) resp
                let delay := (jsonLookup cf "delay").getD (.num 1)
                match pyGtZero delay with
                | .ok true => ([res], [delay])
                | .ok false => ([res], [])
                | .error msg => ([res, mkFailure pid model_tag pt msg], [])
            | .error msg => ([mkFailure pid model_tag pt msg], [])
        | _ =>
            ([mkFailure pid model_tag pt
              "AttributeError: config value has no attribute get"], [])
  | _other =>
      ([mkFailure pid model_tag _other
        "AttributeError: prompt value has no attribute strip"], [])

/-- The batch loop `for i, prompt_data in enumerate(prompts, 1)`:
results and sleep trace, concatenated in input order. -/
def runBatch (gen : GenOracle) (model_tag : String) (temperature : Rat) :
    Nat → List Json → List GenResult × List Json
  | _, [] => ([], [])
  | i, rec :: rest =>
      let head := processRecord gen model_tag temperature i rec
      let tail := runBatch gen model_tag temperature (i + 1) rest
      (head.1 ++ tail.1, head.2 ++ tail.2)

/-- Python iteration (`enumerate`) over the value the loader returned:
lists yield elements, strings characters, dicts keys; other values raise
`TypeError`, which the outer handler of `main` turns into exit code 1. -/
def pyEnumerate : Json → Except String (List Json)
  | .arr elems => .ok elems
  | .str s => .ok (s.data.map fun c => .str (String.mk [c]))
  | .obj fields => .ok (fields.map fun kv => .str kv.1)
  | _ => .error "TypeError: object is not iterable"

/-- The environment of `main` (src/run_prompts.py:295-448): env vars and
the oracles for the HTTP calls. `parse` is the `json.loads` outcome for
`prompts_json`'s content. -/
structure EnvB where
  prompts_json : Option String
  parse : Option Json
  health : Nat → HealthOutcome
  gen : GenOracle
  model_tag : String
  temperature : Rat

/-- Observable outcome of `main`: the exit code, what `health_check`
returned (`none` when the run ends before the client is constructed;
the code IGNORES this boolean — it is recorded here for observation),
the accumulated results, and the sleep trace of the batch loop. -/
structure RunB where
  exitCode : Nat
  ready : Option Bool
  results : List GenResult
  sleeps : List Json

/-- `main` of src/run_prompts.py:295-448. Missing `PROMPTS_JSON` returns 1
before the `try` block; a loader exception is caught by the outer handler
(return 1); `OllamaClient(max_retries=15)` runs the health check and its
result is discarded; `list_models` only logs; the loop then iterates the
loaded value; `save_results` failures are caught per artifact and `main`
returns 0 whether or not `results` is empty. -/
def main (env : EnvB) : RunB :=
  match env.prompts_json with
  | none => ⟨1, none, [], []⟩
  | some raw =>
      match load_prompts_from_json raw env.parse with
      | .error _ => ⟨1, none, [], []⟩
      | .ok loaded =>
          let ready := (health_check env.health 15).1
          match pyEnumerate loaded with
          | .error _ => ⟨1, some ready, [], []⟩
          | .ok prompts =>
              let out := runBatch env.gen env.model_tag env.temperature 1 prompts
              ⟨0, some ready, out.1, out.2⟩

/-- `success_count` of src/run_prompts.py:430. -/
def success_count (results : List GenResult) : Nat :=
  (results.filter fun r => r.success).length

/-- A record whose extracted prompt is a string that is non-empty after
stripping (the batch loop neither skips it nor hits `AttributeError`). -/
def goodPrompt (rec : Json) : Prop :=
  ∃ s, recPrompt rec = .str s ∧ pyStrip s ≠ ""

/-- A record whose extracted config is a dict and whose `delay` entry, if
present, is comparable with 0 (a number or a boolean): the one family of
values for which the post-success delay check cannot raise. -/
def goodDelay (rec : Json) : Prop :=
  ∃ cf, recConfig rec = .obj cf ∧
    ∀ d, jsonLookup cf "delay" = some d →
      (∃ q, d = .num q) ∨ (∃ b, d = .bool b)

/-- Test oracle: every generation request succeeds. -/
def okGen : GenOracle := fun _ => .ok ⟨some "ok", none, none⟩

/-- Test oracle: every generation request raises. -/
def failGen : GenOracle := fun _ => .error "boom"

/-- Test record with just a prompt. -/
def plainRecord : Json := .obj [("prompt", .str "hi")]

/-- Test record whose per-record config carries a non-numeric delay. -/
def badDelayRecord : Json :=
  .obj [("prompt", .str "hi"), ("config", .obj [("delay", .str "soon")])]

/-- Test record whose prompt text is whitespace-only. -/
def wsRecord : Json := .obj [("id", .num 1), ("prompt", .str " ")]

/-- Test environment: one valid prompt, an Ollama service that refuses
every connection (the health check exhausts all 15 attempts), every
generation request failing with a transport error. -/
def envNeverReady : EnvB :=
  ⟨some "[\"hi\"]", some (.arr [.str "hi"]), fun _ => .connError,
    fun _ => .error "connection refused", "m", 1⟩

/-- Test environment: the input document is an object with no `prompts`,
no `prompt` and no `prompt_*` key. -/
def envNoPromptKeys : EnvB :=
  ⟨some "irrelevant", some (.obj [("foo", .str "bar")]), fun _ => .ok,
    okGen, "m", 1⟩

/-- Test health oracle: connection refused twice, then ready. -/
def readyOnThird : Nat → HealthOutcome :=
  fun n => if n < 2 then .connError else .ok

end RunPrompts

namespace CloudflareTunnel

/-- The environment of `main` (src/cloudflare_tunnel.py:238-301): the
`CF_TOKEN` env var and the outcome of each external step, as oracles.
`create_result` is the tunnel id `create_tunnel` parsed out of the
creation command's stdout (`none` covers a failing command, an
unparseable output, or an exception). `cleanup_ok` is the outcome of
`cloudflared tunnel delete`; the code ignores it. -/
structure EnvA where
  cf_token : Option String
  install_ok : Bool
  create_result : Option String
  configure_ok : Bool
  run_ok : Bool
  url_result : Option String
  cleanup_ok : Bool

/-- Observable outcome of Program A's `main`: exit code, the tunnel ids
passed to `cleanup_tunnel`, and the URL written to `tunnel_url.txt`
(when one was resolved). -/
structure RunA where
  exitCode : Nat
  cleanups : List String
  url_written : Option String
deriving DecidableEq

/-- `main` of src/cloudflare_tunnel.py:238-301. Token missing → 1 (no
manager, no cleanup); install failure → 1; creation failure → 1 (nothing
to clean up); configuration failure → cleanup then 1; launch failure →
cleanup then 1; an unresolved URL is a warning only — the run still
writes the pid file and returns 0. The delete outcome never influences
the exit code (best effort). File writes are assumed to succeed. -/
def main (env : EnvA) : RunA :=
  match env.cf_token with
  | none => ⟨1, [], none⟩
  | some _ =>
      if !env.install_ok then ⟨1, [], none⟩
      else
        match env.create_result with
        | none => ⟨1, [], none⟩
        | some tunnel_id =>
            if !env.configure_ok then ⟨1, [tunnel_id], none⟩
            else if !env.run_ok then ⟨1, [tunnel_id], none⟩
            else ⟨0, [], env.url_result⟩

/-- Test environment: token present, binary installed, tunnel created as
`tid123`, configuration fails, delete succeeds. -/
def envTunnelCfgFail : EnvA :=
  ⟨some "tok", true, some "tid123", false, true, none, true⟩

end CloudflareTunnel

open RunPrompts

/-- C5: a bare-string JSON document yields exactly one record whose prompt
is that string and whose identifier is the loader-supplied constant `1`,
independent of the input. -/
theorem C5_bare_string (raw s : String) :
    load_prompts_from_json raw (some (.str s))
      = .ok (.arr [.obj [("id", .num 1), ("prompt", .str s)]]) :=
  rfl

/-- The code's branch chain equals the first-match-wins classification
over the documented priority list. -/
theorem classify_eq_specClassify (j : Json) : classify j = specClassify j := by
  cases j with
  | obj fields =>
      simp only [classify, specClassify, priorityOrder, List.find?, shapeMatches]
      cases h1 : (jsonLookup fields "prompts").isSome with
      | true => simp [h1]
      | false =>
          cases h2 : (jsonLookup fields "prompt").isSome with
          | true => simp [h1, h2]
          | false => simp [h1, h2]
  | str s => rfl
  | num q => rfl
  | bool b => rfl
  | null => rfl
  | arr elems => rfl

/-- C4: classification is the documented priority order (the code's branch
chain equals first-match over the priority list); an object holding both a
`prompts` and a `prompt` key takes the `prompts` branch, the loader
returning the value under `prompts`; and the documented example yields
exactly one record with id 1 and prompt "hi". -/
theorem C4_shape_priority :
    (∀ j, classify j = specClassify j) ∧
    (∀ (raw : String) (fields : List (String × Json)) (v w : Json),
       jsonLookup fields "prompts" = some v →
       jsonLookup fields "prompt" = some w →
       classify (.obj fields) = some .promptsKey ∧
       load_prompts_from_json raw (some (.obj fields)) = .ok v) ∧
    load_prompts_from_json "x"
        (some (.obj [("prompts",
          .arr [.obj [("id", .num 1), ("prompt", .str "hi")]])]))
      = .ok (.arr [.obj [("id", .num 1), ("prompt", .str "hi")]]) ∧
    recId 1 (.obj [("id", .num 1), ("prompt", .str "hi")]) = .num 1 ∧
    recPrompt (.obj [("id", .num 1), ("prompt", .str "hi")]) = .str "hi" := by
  refine ⟨classify_eq_specClassify, ?_, rfl, rfl, rfl⟩
  intro raw fields v w h1 h2
  constructor
  · simp [classify, h1]
  · simp [load_prompts_from_json, h1]

/-- C4 witness: a concrete object carrying both keys is classified as the
`prompts` shape and unwrapped to the value under `prompts`. -/
theorem C4_witness :
    classify (.obj [("prompts", .str "P"), ("prompt", .str "Q")])
        = some .promptsKey ∧
    load_prompts_from_json "x"
        (some (.obj [("prompts", .str "P"), ("prompt", .str "Q")]))
      = .ok (.str "P") :=
  C4_shape_priority.2.1 "x" [("prompts", .str "P"), ("prompt", .str "Q")]
    (.str "P") (.str "Q") rfl rfl

/-- C6: malformed JSON is a fatal decode error whose diagnostic preview is
the first 500 characters of the (non-empty) offending text — at most 500
characters, a true left piece of the input — and a document of any
non-accepted type (number, boolean, null) is a fatal error naming the
unexpected type. -/
theorem C6_fatal_errors :
    (∀ raw : String, raw ≠ "" →
       load_prompts_from_json raw none
         = .error (.decodeError (some (raw.data.take 500))) ∧
       (raw.data.take 500).length ≤ 500 ∧
       raw.data.take 500 <+: raw.data) ∧
    (∀ (raw : String) (q : Rat),
       load_prompts_from_json raw (some (.num q))
         = .error (.unrecognized "number")) ∧
    (∀ (raw : String) (b : Bool),
       load_prompts_from_json raw (some (.bool b))
         = .error (.unrecognized "bool")) ∧
    (∀ raw : String,
       load_prompts_from_json raw (some .null)
         = .error (.unrecognized "NoneType")) := by
  refine ⟨?_, fun _ _ => rfl, fun _ _ => rfl, fun _ => rfl⟩
  intro raw h
  refine ⟨?_, ?_, ?_⟩
  · simp [load_prompts_from_json, h]
  · simp [List.length_take]
  · exact List.take_prefix 500 raw.data

/-- C6 witness: the concrete unparseable text "oops" produces the decode
error carrying its full (≤ 500 character) preview. -/
theorem C6_witness :
    load_prompts_from_json "oops" none
      = .error (.decodeError (some ("oops".data.take 500))) :=
  (C6_fatal_errors.1 "oops" (by decide)).1

/-- C10: an object with no `prompts` key, no `prompt` key and no
`prompt_*`-prefixed key normalizes to the empty record list — no error —
and the whole run then exits 0 with zero results. -/
theorem C10_generic_object_empty (raw : String)
    (fields : List (String × Json)) (env : EnvB)
    (h1 : jsonLookup fields "prompts" = none)
    (h2 : jsonLookup fields "prompt" = none)
    (h3 : ∀ kv ∈ fields, pyStartsWith kv.1 "prompt_" = false)
    (he1 : env.prompts_json = some raw)
    (he2 : env.parse = some (.obj fields)) :
    load_prompts_from_json raw (some (.obj fields)) = .ok (.arr []) ∧
    (RunPrompts.main env).exitCode = 0 ∧
    (RunPrompts.main env).results = [] := by
  have hload : load_prompts_from_json raw (some (.obj fields))
      = .ok (.arr []) := by
    have hfm : (fields.filterMap fun kv =>
        if pyStartsWith kv.1 "prompt_" then
          some (Json.obj [("id", .str kv.1), ("prompt", kv.2)])
        else none) = [] := by
      rw [List.filterMap_eq_nil_iff]
      intro kv hkv
      simp [h3 kv hkv]
    simp [load_prompts_from_json, h1, h2, hfm]
  refine ⟨hload, ?_, ?_⟩ <;>
    simp [RunPrompts.main, he1, he2, hload, pyEnumerate, runBatch]

/-- C10 witness: the concrete object with the single key "foo" makes the
run exit 0 with no results. -/
theorem C10_witness :
    (RunPrompts.main envNoPromptKeys).exitCode = 0 ∧
    (RunPrompts.main envNoPromptKeys).results = [] := by
  have h := C10_generic_object_empty "irrelevant" [("foo", .str "bar")]
    envNoPromptKeys rfl rfl (by decide) rfl rfl
  exact ⟨h.2.1, h.2.2⟩

/-- C9: in Program A, a configuration or launch failure after the tunnel
was created triggers a best-effort delete of that tunnel before the
non-zero exit; a fatal failure before creation (missing token, install
failure, creation failure) deletes nothing; and an unresolved URL is
non-fatal — the run still exits 0 without deleting. -/
theorem C9_cleanup_after_creation (env : CloudflareTunnel.EnvA) :
    (env.cf_token = none → CloudflareTunnel.main env = ⟨1, [], none⟩) ∧
    (env.cf_token.isSome = true → env.install_ok = false →
       CloudflareTunnel.main env = ⟨1, [], none⟩) ∧
    (env.cf_token.isSome = true → env.install_ok = true →
       env.create_result = none → CloudflareTunnel.main env = ⟨1, [], none⟩) ∧
    (∀ tid, env.cf_token.isSome = true → env.install_ok = true →
       env.create_result = some tid → env.configure_ok = false →
       CloudflareTunnel.main env = ⟨1, [tid], none⟩) ∧
    (∀ tid, env.cf_token.isSome = true → env.install_ok = true →
       env.create_result = some tid → env.configure_ok = true →
       env.run_ok = false → CloudflareTunnel.main env = ⟨1, [tid], none⟩) ∧
    (∀ tid, env.cf_token.isSome = true → env.install_ok = true →
       env.create_result = some tid → env.configure_ok = true →
       env.run_ok = true →
       CloudflareTunnel.main env = ⟨0, [], env.url_result⟩) := by
  refine ⟨?_, ?_, ?_, ?_, ?_, ?_⟩
  · intro h; simp [CloudflareTunnel.main, h]
  · intro h1 h2
    obtain ⟨t, ht⟩ := Option.isSome_iff_exists.mp h1
    simp [CloudflareTunnel.main, ht, h2]
  · intro h1 h2 h3
    obtain ⟨t, ht⟩ := Option.isSome_iff_exists.mp h1
    simp [CloudflareTunnel.main, ht, h2, h3]
  · intro tid h1 h2 h3 h4
    obtain ⟨t, ht⟩ := Option.isSome_iff_exists.mp h1
    simp [CloudflareTunnel.main, ht, h2, h3, h4]
  · intro tid h1 h2 h3 h4 h5
    obtain ⟨t, ht⟩ := Option.isSome_iff_exists.mp h1
    simp [CloudflareTunnel.main, ht, h2, h3, h4, h5]
  · intro tid h1 h2 h3 h4 h5
    obtain ⟨t, ht⟩ := Option.isSome_iff_exists.mp h1
    simp [CloudflareTunnel.main, ht, h2, h3, h4, h5]

/-- C9 witness: with the tunnel created as `tid123` and configuration
failing, the program deletes `tid123` and exits 1. -/
theorem C9_witness :
    CloudflareTunnel.main CloudflareTunnel.envTunnelCfgFail
      = ⟨1, ["tid123"], none⟩ :=
  (C9_cleanup_after_creation CloudflareTunnel.envTunnelCfgFail).2.2.2.1
    "tid123" rfl rfl rfl rfl

/-- C2, code bug: with the service never reachable, `health_check`
exhausts its 15 attempts and returns `false`, but `OllamaClient.__init__`
and `main` ignore that boolean: the batch still runs (one failure result
here) and `main` returns exit code 0 instead of aborting with a non-zero
exit as the spec requires. -/
theorem C2_health_exhaustion_ignored :
    (health_check envNeverReady.health 15).1 = false ∧
    (RunPrompts.main envNeverReady).ready = some false ∧
    (RunPrompts.main envNeverReady).exitCode = 0 ∧
    (RunPrompts.main envNeverReady).results.length = 1 := by
  refine ⟨rfl, rfl, rfl, rfl⟩

/-- The attempt counter of the health loop never exceeds the attempts
already made plus the attempts remaining. -/
theorem healthAux_attempts_le (oracle : Nat → HealthOutcome) :
    ∀ (r i : Nat) (ws : List (Nat × Nat)),
      (healthAux oracle r i ws).2.1 ≤ i + r := by
  intro r
  induction r with
  | zero => intro i ws; simp [healthAux]
  | succ r ih =>
      intro i ws
      cases h : oracle i with
      | ok => simp only [healthAux, h]; omega
      | badStatus =>
          simp only [healthAux, h]
          have := ih (i + 1) ws
          omega
      | otherError =>
          by_cases hr : 0 < r
          · simp only [healthAux, h, if_pos hr]
            have := ih (i + 1) (ws ++ [(i, 5)])
            omega
          · simp only [healthAux, h, if_neg hr]
            have := ih (i + 1) ws
            omega
      | connError =>
          by_cases hr : 0 < r
          · simp only [healthAux, h, if_pos hr]
            have := ih (i + 1) (ws ++ [(i, 5 * (i + 1))])
            omega
          · simp only [healthAux, h, if_neg hr]
            omega

/-- If the `k`-th attempt (0-based, `k` within the budget) is the first
success, the loop stops there with result `true`. -/
theorem healthAux_first_success (oracle : Nat → HealthOutcome) :
    ∀ (k r i : Nat) (ws : List (Nat × Nat)), k < r →
      oracle (i + k) = .ok → (∀ j, j < k → oracle (i + j) ≠ .ok) →
      (healthAux oracle r i ws).1 = true ∧
      (healthAux oracle r i ws).2.1 = i + k + 1 := by
  intro k
  induction k with
  | zero =>
      intro r i ws hr hok _
      match r, hr with
      | r + 1, _ =>
        have hoi : oracle i = .ok := by simpa using hok
        simp [healthAux, hoi]
  | succ k ih =>
      intro r i ws hr hok hne
      match r, hr with
      | r + 1, hr =>
        have hrpos : 0 < r := by omega
        have h0 : oracle i ≠ .ok := by
          have := hne 0 (by omega)
          simpa using this
        have hok1 : oracle (i + 1 + k) = .ok := by
          have : i + 1 + k = i + (k + 1) := by omega
          rw [this]; exact hok
        have hne1 : ∀ j, j < k → oracle (i + 1 + j) ≠ .ok := by
          intro j hj
          have : i + 1 + j = i + (j + 1) := by omega
          rw [this]; exact hne (j + 1) (by omega)
        have hk : k < r := by omega
        cases hoi : oracle i with
        | ok => exact absurd hoi h0
        | badStatus =>
            have := ih r (i + 1) ws hk hok1 hne1
            simp only [healthAux, hoi]
            exact ⟨this.1, by rw [this.2]; omega⟩
        | connError =>
            have := ih r (i + 1) (ws ++ [(i, 5 * (i + 1))]) hk hok1 hne1
            simp only [healthAux, hoi, if_pos hrpos]
            exact ⟨this.1, by rw [this.2]; omega⟩
        | otherError =>
            have := ih r (i + 1) (ws ++ [(i, 5)]) hk hok1 hne1
            simp only [healthAux, hoi, if_pos hrpos]
            exact ⟨this.1, by rw [this.2]; omega⟩

/-- If no attempt within the budget succeeds, the loop returns `false`. -/
theorem healthAux_never_ok (oracle : Nat → HealthOutcome) :
    ∀ (r i : Nat) (ws : List (Nat × Nat)),
      (∀ j, j < r → oracle (i + j) ≠ .ok) →
      (healthAux oracle r i ws).1 = false := by
  intro r
  induction r with
  | zero => intro i ws _; simp [healthAux]
  | succ r ih =>
      intro i ws hne
      have h0 : oracle i ≠ .ok := by
        have := hne 0 (by omega)
        simpa using this
      have hne1 : ∀ j, j < r → oracle (i + 1 + j) ≠ .ok := by
        intro j hj
        have : i + 1 + j = i + (j + 1) := by omega
        rw [this]; exact hne (j + 1) (by omega)
      cases hoi : oracle i with
      | ok => exact absurd hoi h0
      | badStatus => simp only [healthAux, hoi]; exact ih (i + 1) ws hne1
      | connError =>
          by_cases hr : 0 < r
          · simp only [healthAux, hoi, if_pos hr]
            exact ih (i + 1) _ hne1
          · simp [healthAux, hoi, if_neg hr]
      | otherError =>
          by_cases hr : 0 < r
          · simp only [healthAux, hoi, if_pos hr]
            exact ih (i + 1) _ hne1
          · simp only [healthAux, hoi, if_neg hr]
            exact ih (i + 1) ws hne1

/-- Every pair of the sleep trace is either a connection-refused wait of
`5 * (attempt index + 1)` seconds or a fixed 5-second wait after another
error. -/
theorem healthAux_waits_mem (oracle : Nat → HealthOutcome) :
    ∀ (r i : Nat) (ws : List (Nat × Nat)),
      (∀ p ∈ ws, (oracle p.1 = .connError ∧ p.2 = 5 * (p.1 + 1)) ∨
        (oracle p.1 = .otherError ∧ p.2 = 5)) →
      ∀ p ∈ (healthAux oracle r i ws).2.2,
        (oracle p.1 = .connError ∧ p.2 = 5 * (p.1 + 1)) ∨
        (oracle p.1 = .otherError ∧ p.2 = 5) := by
  intro r
  induction r with
  | zero => intro i ws hws; simpa [healthAux] using hws
  | succ r ih =>
      intro i ws hws
      cases hoi : oracle i with
      | ok => simpa [healthAux, hoi] using hws
      | badStatus => simp only [healthAux, hoi]; exact ih (i + 1) ws hws
      | connError =>
          by_cases hr : 0 < r
          · simp only [healthAux, hoi, if_pos hr]
            refine ih (i + 1) _ ?_
            intro p hp
            rcases List.mem_append.mp hp with h | h
            · exact hws p h
            · left
              have : p = (i, 5 * (i + 1)) := by simpa using h
              subst this
              exact ⟨hoi, rfl⟩
          · simpa [healthAux, hoi, if_neg hr] using hws
      | otherError =>
          by_cases hr : 0 < r
          · simp only [healthAux, hoi, if_pos hr]
            refine ih (i + 1) _ ?_
            intro p hp
            rcases List.mem_append.mp hp with h | h
            · exact hws p h
            · right
              have : p = (i, 5) := by simpa using h
              subst this
              exact ⟨hoi, rfl⟩
          · simp only [healthAux, hoi, if_neg hr]
            exact ih (i + 1) ws hws

/-- C8: the health check never issues more attempts than `max_retries`;
a first success at attempt `k+1` stops the loop right there with result
`true`; no success within the budget gives result `false`; every recorded
wait is either the linearly growing connection-refused backoff
`5 * (attempt + 1)` or the fixed 5-second wait after another error — so
waits after connection-refused attempts strictly increase with the
attempt number. -/
theorem C8_health_check_bounds (oracle : Nat → HealthOutcome)
    (max_retries : Nat) :
    (health_check oracle max_retries).2.1 ≤ max_retries ∧
    (∀ k, k < max_retries → oracle k = .ok → (∀ j, j < k → oracle j ≠ .ok) →
       (health_check oracle max_retries).1 = true ∧
       (health_check oracle max_retries).2.1 = k + 1) ∧
    ((∀ j, j < max_retries → oracle j ≠ .ok) →
       (health_check oracle max_retries).1 = false) ∧
    (∀ p ∈ (health_check oracle max_retries).2.2,
       (oracle p.1 = .connError ∧ p.2 = 5 * (p.1 + 1)) ∨
       (oracle p.1 = .otherError ∧ p.2 = 5)) ∧
    (∀ a b wa wb, (a, wa) ∈ (health_check oracle max_retries).2.2 →
       (b, wb) ∈ (health_check oracle max_retries).2.2 →
       oracle a = .connError → oracle b = .connError → a < b → wa < wb) := by
  refine ⟨?_, ?_, ?_, ?_, ?_⟩
  · have := healthAux_attempts_le oracle max_retries 0 []
    simpa [health_check] using this
  · intro k hk hok hne
    have := healthAux_first_success oracle k max_retries 0 [] hk
      (by simpa using hok) (by simpa using hne)
    simpa [health_check] using this
  · intro hne
    have := healthAux_never_ok oracle max_retries 0 []
      (by simpa using hne)
    simpa [health_check] using this
  · have := healthAux_waits_mem oracle max_retries 0 [] (by simp)
    simpa [health_check] using this
  · intro a b wa wb ha hb hca hcb hab
    have hmem := healthAux_waits_mem oracle max_retries 0 [] (by simp)
    have h1 := hmem (a, wa) (by simpa [health_check] using ha)
    have h2 := hmem (b, wb) (by simpa [health_check] using hb)
    have hwa : wa = 5 * (a + 1) := by
      rcases h1 with ⟨_, h⟩ | ⟨h, _⟩
      · exact h
      · rw [hca] at h; cases h
    have hwb : wb = 5 * (b + 1) := by
      rcases h2 with ⟨_, h⟩ | ⟨h, _⟩
      · exact h
      · rw [hcb] at h; cases h
    omega

/-- C8 witness: a service refusing connections twice and ready on the
third attempt yields `ready = true` after exactly 3 attempts. -/
theorem C8_witness :
    (health_check readyOnThird 15).1 = true ∧
    (health_check readyOnThird 15).2.1 = 3 :=
  (C8_health_check_bounds readyOnThird 15).2.1 2 (by decide) (by decide)
    (by decide)

/-- C3 counterexample: the loader itself keeps a record whose prompt text
is whitespace-only — for the input `[{"id":1,"prompt":" "}]` the
normalized sequence the loader returns still contains that record, whose
extracted prompt strips to the empty string. -/
theorem C3_counterexample :
    load_prompts_from_json "x" (some (.arr [wsRecord])) = .ok (.arr [wsRecord]) ∧
    recPrompt wsRecord = .str " " ∧
    pyStrip " " = "" := by
  refine ⟨rfl, rfl, by decide⟩

/-- C3 amended: empty/whitespace-only prompts survive the loader but are
skipped by the batch loop — such a record produces no GenerationResult
and no delay, so it never appears in the output results and contributes
nothing to the success/failure totals (processing continues with the next
record at the next index). -/
theorem C3_whitespace_skipped (gen : GenOracle) (model : String) (temp : Rat)
    (i : Nat) (rec : Json) (s : String) (rest : List Json)
    (hp : recPrompt rec = .str s) (hs : pyStrip s = "") :
    processRecord gen model temp i rec = ([], []) ∧
    runBatch gen model temp i (rec :: rest)
      = runBatch gen model temp (i + 1) rest := by
  have h1 : processRecord gen model temp i rec = ([], []) := by
    simp [processRecord, hp, hs]
  refine ⟨h1, ?_⟩
  simp [runBatch, h1]

/-- C3 witness: the concrete whitespace-prompt record yields no result
even under an always-failing generation oracle. -/
theorem C3_witness :
    processRecord failGen "m" 1 1 wsRecord = ([], []) :=
  (C3_whitespace_skipped failGen "m" 1 1 wsRecord " " [] rfl (by decide)).1

/-- C7 corrected: the inter-record delay is applied only after a
SUCCESSFUL record — a failed generation request appends its failure
result and reaches no sleep; after a success the delay defaults to 1,
is overridden by the record config's `delay`, and is skipped when the
resolved delay is ≤ 0. -/
theorem C7_delay_on_success (gen : GenOracle) (model : String) (temp : Rat)
    (i : Nat) (rec : Json) :
    (∀ e, gen i = .error e → (processRecord gen model temp i rec).2 = []) ∧
    (∀ s cf resp, recPrompt rec = .str s → pyStrip s ≠ "" →
       recConfig rec = .obj cf → jsonLookup cf "delay" = none →
       gen i = .ok resp → (processRecord gen model temp i rec).2 = [.num 1]) ∧
    (∀ s cf q resp, recPrompt rec = .str s → pyStrip s ≠ "" →
       recConfig rec = .obj cf → jsonLookup cf "delay" = some (.num q) →
       gen i = .ok resp →
       (processRecord gen model temp i rec).2
         = if 0 < q then [.num q] else []) := by
  refine ⟨?_, ?_, ?_⟩
  · intro e hgen
    cases hp : recPrompt rec with
    | str s =>
        by_cases hs : pyStrip s = ""
        · simp [processRecord, hp, hs]
        · cases hc : recConfig rec with
          | obj cf => simp [processRecord, hp, hs, hc, hgen]
          | str s2 => simp [processRecord, hp, hs, hc]
          | num q => simp [processRecord, hp, hs, hc]
          | bool b => simp [processRecord, hp, hs, hc]
          | null => simp [processRecord, hp, hs, hc]
          | arr es => simp [processRecord, hp, hs, hc]
    | num q => simp [processRecord, hp]
    | bool b => simp [processRecord, hp]
    | null => simp [processRecord, hp]
    | arr es => simp [processRecord, hp]
    | obj fs => simp [processRecord, hp]
  · intro s cf resp hp hs hc hd hgen
    have hb : decide ((0:Rat) < 1) = true := decide_eq_true (by norm_num)
    simp [processRecord, pyGtZero, hp, hs, hc, hd, hgen, hb]
  · intro s cf q resp hp hs hc hd hgen
    by_cases h0 : (0:Rat) < q
    · have hb : decide ((0:Rat) < q) = true := decide_eq_true h0
      simp [processRecord, pyGtZero, hp, hs, hc, hd, hgen, hb, if_pos h0]
    · have hb : decide ((0:Rat) < q) = false := decide_eq_false h0
      simp [processRecord, pyGtZero, hp, hs, hc, hd, hgen, hb, if_neg h0]

/-- C7 counterexample: a batch whose single record fails (transport
error) produces its failure result but performs NO inter-record delay —
the claim's "after each record, success or failure" does not hold for
the failure path. -/
theorem C7_counterexample :
    (runBatch failGen "m" 1 1 [plainRecord]).1.length = 1 ∧
    ((runBatch failGen "m" 1 1 [plainRecord]).1.map fun r => r.success)
      = [false] ∧
    (runBatch failGen "m" 1 1 [plainRecord]).2 = [] := by
  refine ⟨rfl, rfl, rfl⟩

/-- C7 witness: a successful record with no per-record delay config is
followed by the default 1-second delay. -/
theorem C7_witness :
    (processRecord okGen "m" 1 1 plainRecord).2 = [.num 1] :=
  (C7_delay_on_success okGen "m" 1 1 plainRecord).2.1 "hi" []
    ⟨some "ok", none, none⟩ rfl (by decide) rfl rfl rfl

/-- A record with a well-formed prompt and a well-formed delay config
yields exactly one result, carrying the record's id, successful exactly
when the generation request succeeded. -/
theorem processRecord_one (gen : GenOracle) (model : String) (temp : Rat)
    (i : Nat) (rec : Json) (hp : goodPrompt rec) (hd : goodDelay rec) :
    ∃ r, (processRecord gen model temp i rec).1 = [r] ∧
      r.id = recId i rec ∧
      (∀ resp, gen i = .ok resp → r.success = true) ∧
      (∀ e, gen i = .error e → r.success = false ∧ r.error = some e) := by
  obtain ⟨s, hps, hne⟩ := hp
  obtain ⟨cf, hcf, hdel⟩ := hd
  cases hgen : gen i with
  | error e =>
      refine ⟨mkFailure (recId i rec) model (.str s) e, ?_, rfl, ?_, ?_⟩
      · simp [processRecord, hps, hne, hcf, hgen]
      · intro resp h
        exact Except.noConfusion h
      · intro e2 h
        injection h with h
        subst h
        exact ⟨rfl, rfl⟩
  | ok resp =>
      have contra : ∀ e, Except.ok resp = Except.error e →
          (mkSuccess (recId i rec) model
            ((jsonLookup cf "temperature").getD (.num temp)) s (recSystem rec)
            (.obj cf) resp).success = false ∧
          (mkSuccess (recId i rec) model
            ((jsonLookup cf "temperature").getD (.num temp)) s (recSystem rec)
            (.obj cf) resp).error = some e := by
        intro e h
        exact Except.noConfusion h
      cases hdc : jsonLookup cf "delay" with
      | none =>
          refine ⟨mkSuccess (recId i rec) model
            ((jsonLookup cf "temperature").getD (.num temp)) s (recSystem rec)
            (.obj cf) resp, ?_, rfl, fun _ _ => rfl, contra⟩
          have hb : decide ((0:Rat) < 1) = true := decide_eq_true (by norm_num)
          simp [processRecord, pyGtZero, hps, hne, hcf, hgen, hdc, hb]
      | some d =>
          rcases hdel d hdc with ⟨q, rfl⟩ | ⟨b, rfl⟩
          · refine ⟨mkSuccess (recId i rec) model
              ((jsonLookup cf "temperature").getD (.num temp)) s (recSystem rec)
              (.obj cf) resp, ?_, rfl, fun _ _ => rfl, contra⟩
            by_cases h0 : (0:Rat) < q
            · have hb : decide ((0:Rat) < q) = true := decide_eq_true h0
              simp [processRecord, pyGtZero, hps, hne, hcf, hgen, hdc, hb]
            · have hb : decide ((0:Rat) < q) = false := decide_eq_false h0
              simp [processRecord, pyGtZero, hps, hne, hcf, hgen, hdc, hb]
          · refine ⟨mkSuccess (recId i rec) model
              ((jsonLookup cf "temperature").getD (.num temp)) s (recSystem rec)
              (.obj cf) resp, ?_, rfl, fun _ _ => rfl, contra⟩
            cases b with
            | true => simp [processRecord, pyGtZero, hps, hne, hcf, hgen, hdc]
            | false => simp [processRecord, pyGtZero, hps, hne, hcf, hgen, hdc]

/-- Over a batch of well-formed records, the loop emits one result per
record, position `k` of the output matching record `k` of the input and
the generation outcome at index `i + k`. -/
theorem runBatch_ordered (gen : GenOracle) (model : String) (temp : Rat) :
    ∀ (batch : List Json) (i : Nat),
      (∀ rec ∈ batch, goodPrompt rec) → (∀ rec ∈ batch, goodDelay rec) →
      (runBatch gen model temp i batch).1.length = batch.length ∧
      ∀ k reck, batch.get? k = some reck → ∃ r,
        (runBatch gen model temp i batch).1.get? k = some r ∧
        r.id = recId (i + k) reck ∧
        (∀ resp, gen (i + k) = .ok resp → r.success = true) ∧
        (∀ e, gen (i + k) = .error e →
          r.success = false ∧ r.error = some e) := by
  intro batch
  induction batch with
  | nil =>
      intro i h1 h2
      exact ⟨rfl, fun k reck hk => by simp at hk⟩
  | cons rec rest ih =>
      intro i h1 h2
      obtain ⟨r, hr1, hrid, hrok, hrerr⟩ :=
        processRecord_one gen model temp i rec (h1 rec (by simp))
          (h2 rec (by simp))
      have hrest1 : ∀ x ∈ rest, goodPrompt x := fun x hx => h1 x (by simp [hx])
      have hrest2 : ∀ x ∈ rest, goodDelay x := fun x hx => h2 x (by simp [hx])
      obtain ⟨ihlen, ihget⟩ := ih (i + 1) hrest1 hrest2
      have hcons : (runBatch gen model temp i (rec :: rest)).1
          = r :: (runBatch gen model temp (i + 1) rest).1 := by
        simp [runBatch, hr1]
      constructor
      · rw [hcons]
        simp [ihlen]
      · intro k reck hk
        cases k with
        | zero =>
            have hrec : rec = reck := by simpa using hk
            subst hrec
            refine ⟨r, ?_, ?_, ?_, ?_⟩
            · rw [hcons]; rfl
            · simpa using hrid
            · simpa using hrok
            · simpa using hrerr
        | succ k =>
            have hk2 : rest.get? k = some reck := by simpa using hk
            obtain ⟨r2, hg, hid2, hok2, herr2⟩ := ihget k reck hk2
            have hidx : i + 1 + k = i + (k + 1) := by omega
            rw [hidx] at hid2 hok2 herr2
            refine ⟨r2, ?_, hid2, hok2, herr2⟩
            rw [hcons]
            simpa using hg

/-- C1 amended: for a batch of N records whose prompt text is a string
that is non-empty after trimming, whose per-record config is an object
with a numeric-or-boolean `delay` (if any) — ruling out the delay
`TypeError` that would append a second result — and whose generation
failures carry non-empty messages, the loop emits exactly N results in
input order: result k carries record k's id, is successful when request
k succeeded, and on a raising request k is a failure with that non-empty
error string; one record's failure never prevents the rest (every later
record still gets its result). -/
theorem C1_batch_isolation (gen : GenOracle) (model : String) (temp : Rat)
    (batch : List Json)
    (h1 : ∀ rec ∈ batch, goodPrompt rec)
    (h2 : ∀ rec ∈ batch, goodDelay rec)
    (h3 : ∀ n e, gen n = .error e → e ≠ "") :
    (runBatch gen model temp 1 batch).1.length = batch.length ∧
    ∀ k reck, batch.get? k = some reck → ∃ r,
      (runBatch gen model temp 1 batch).1.get? k = some r ∧
      r.id = recId (k + 1) reck ∧
      (∀ resp, gen (k + 1) = .ok resp → r.success = true) ∧
      (∀ e, gen (k + 1) = .error e →
        r.success = false ∧ r.error = some e ∧ e ≠ "") := by
  obtain ⟨hlen, hget⟩ := runBatch_ordered gen model temp batch 1 h1 h2
  refine ⟨hlen, ?_⟩
  intro k reck hk
  obtain ⟨r, hg, hid, hok, herr⟩ := hget k reck hk
  have hidx : 1 + k = k + 1 := by omega
  rw [hidx] at hid hok herr
  exact ⟨r, hg, hid, hok,
    fun e he => ⟨(herr e he).1, (herr e he).2, h3 (k + 1) e he⟩⟩

/-- C1 counterexample: a single record with non-empty prompt "hi" whose
config carries the non-numeric delay "soon" yields TWO results under a
succeeding oracle — the success result, then the failure appended when
`delay > 0` raises `TypeError` — so the batch of 1 produces 2 results,
one of them `success=false` although its request succeeded. -/
theorem C1_counterexample :
    (runBatch okGen "m" 1 1 [badDelayRecord]).1.length = 2 ∧
    ((runBatch okGen "m" 1 1 [badDelayRecord]).1.map fun r => r.success)
      = [true, false] := by
  refine ⟨rfl, rfl⟩

/-- C1 witness: one well-formed record yields exactly one result. -/
theorem C1_witness :
    (runBatch okGen "m" 1 1 [plainRecord]).1.length = 1 := by
  have h1 : ∀ rec ∈ [plainRecord], goodPrompt rec := by
    intro rec hrec
    rw [List.mem_singleton] at hrec
    subst hrec
    exact ⟨"hi", rfl, by decide⟩
  have h2 : ∀ rec ∈ [plainRecord], goodDelay rec := by
    intro rec hrec
    rw [List.mem_singleton] at hrec
    subst hrec
    refine ⟨[], rfl, ?_⟩
    intro d hd
    simp [jsonLookup] at hd
  have h3 : ∀ n e, okGen n = .error e → e ≠ "" := by
    intro n e h
    simp [okGen] at h
  exact (C1_batch_isolation okGen "m" 1 [plainRecord] h1 h2 h3).1

/-- C5 witness: the documented example input "hello" yields one record
with the loader-supplied id 1 and prompt "hello". -/
theorem C5_witness :
    load_prompts_from_json "q" (some (.str "hello"))
      = .ok (.arr [.obj [("id", .num 1), ("prompt", .str "hello")]]) :=
  C5_bare_string "q" "hello"
